import Mathlib

/-!
Verification of the Markov_Models estimation/hierarchy-management core
(`src/Markov_Models/base.py`, `src/Markov_Models/msm/base.py`).

The two orchestration classes are shallowly embedded: Python objects become
records with `Option` fields for attributes that may not have been assigned
yet (reading such an attribute raises `AttributeError` in Python, modelled
as an explicit error value), and the external collaborators (clustering,
classification, count-matrix / transition-matrix estimation, spectral
analysis, coarse graining) become fields of a parameter record `Ext`, since
their code is outside the verified core.  All numerical payloads are kept
abstract as integer matrices; the claims under study are about control flow,
dispatch, validation and attribute updates, never about numerical values.
-/

namespace MarkovModels

/-- Python labels array: one integer state label per sample. -/
abbrev Labels := List Nat

/-- Abstract matrix payload (centroids, data, count and transition matrices). -/
abbrev Mat := List (List Int)

abbrev Centroids := Mat
abbrev CMat := Mat
abbrev TMat := Mat

/-- Python exceptions raised by the embedded code.  `attributeError` covers
both the explicit `raise AttributeError(...)` sites (the spec's
ConfigurationError / NotFittedError) and reading a never-assigned attribute;
`valueError` covers errors raised inside numpy; `indexError` covers list
indexing. -/
inductive PyErr where
  | attributeError (msg : String)
  | valueError (msg : String)
  | indexError (msg : String)
deriving Repr, DecidableEq

/-- `BaseMicroMSM.fit`, neither `N` nor `centroids` supplied. -/
def neitherSuppliedErr : PyErr :=
  .attributeError "Neither number of microstates nor pre-computed centroids supplied."

/-- Reading `self.labels` when the attribute was never assigned. -/
def noLabelsErr : PyErr :=
  .attributeError "BaseMicroMSM object has no attribute labels"

/-- Reading `self.labels` on a BaseMacroMSM when the attribute was never assigned. -/
def macroNoLabelsErr : PyErr :=
  .attributeError "BaseMacroMSM object has no attribute labels"

/-- Reading `self._micro._N` when the microstate model was never fit. -/
def microNMissingErr : PyErr :=
  .attributeError "BaseMicroMSM object has no attribute _N"

/-- `BaseMacroMSM.fit` macrostate-count validation failure. -/
def tooManyMacroErr : PyErr :=
  .attributeError "Number of macrostates cannot be greater than N-1 of number of microstates."

/-- `BaseMacroMSM.fit`, fewer than 4 macrostates with the sparse representation. -/
def tooFewSparseErr : PyErr :=
  .attributeError "Too few macrostates to use the sparse method! Update to sparse=False"

/-- `BaseMacroMSM.fit`, unrecognized coarse-graining method. -/
def unknownMethodErr (m : String) : PyErr :=
  .attributeError ("Method " ++ m ++ " is not implemented!")

/-- `BaseMicroMSM.predict` before any fit. -/
def noFitMicroErr : PyErr :=
  .attributeError "No fit instance has been run! Fit data, before"

/-- `BaseMicroMSM.count_matrix` / `transition_matrix` property before any fit. -/
def noMicroInstanceErr : PyErr :=
  .attributeError "No instance found. Microstate model must be fit first."

/-- `BaseMacroMSM.count_matrix` / `transition_matrix` property before any fit. -/
def noMacroInstanceErr : PyErr :=
  .attributeError "No instance found. Macrostate model must be fit first."

/-- Reading `self._T` on an unfit BaseMicroMSM. -/
def microTMissingErr : PyErr :=
  .attributeError "BaseMicroMSM object has no attribute _T"

/-- Reading `self._T` on an unfit BaseMacroMSM. -/
def macroTMissingErr : PyErr :=
  .attributeError "BaseMacroMSM object has no attribute _T"

/-- `BaseMacroMSM.predict` with an unfit microstate model. -/
def macroPredictUnfitErr : PyErr :=
  .attributeError "Microstate fitting must be performed prior to macrostate prediction."

/-- Reading `self.metastable_labels` on an unfit BaseMacroMSM. -/
def metastableMissingErr : PyErr :=
  .attributeError "BaseMacroMSM object has no attribute metastable_labels"

/-- Reading `self._micro.centroids` when the microstate model was never fit. -/
def microCentroidsMissingErr : PyErr :=
  .attributeError "BaseMicroMSM object has no attribute centroids"

/-- `np.concatenate` shape-mismatch error. -/
def concatMismatchErr : PyErr :=
  .valueError "all the input array dimensions except for the concatenation axis must match exactly"

/-- `np.concatenate([])`. -/
def concatEmptyErr : PyErr :=
  .valueError "need at least one array to concatenate"

/-- `np.min` / `np.max` over an empty axis. -/
def zeroSizeMinErr : PyErr :=
  .valueError "zero-size array to reduction operation minimum which has no identity"

/-- `n_features[0]` on an empty list. -/
def emptyIndexErr : PyErr :=
  .indexError "list index out of range"

/-- `BaseModel.__init__` feature-width validation failure (lines 22-24 of base.py). -/
def featuresMismatchErr : PyErr :=
  .attributeError "Number of features must be the same for all sets of data!"

/-- Python `str.lower()` (the embedded methods only compare ASCII names). -/
def pyLower (s : String) : String := String.mk (s.data.map Char.toLower)

/-- State of a `BaseMicroMSM` object.  `Option` fields are attributes that the
source assigns only during `fit`; the four leading fields are copied from the
owning BaseModel in `__init__` (lines 12-17 of msm/base.py). -/
structure MicroSt where
  is_force_db : Bool
  is_reversible : Bool
  is_sparse : Bool
  lag : Nat
  centroids : Option Centroids := none
  labels : Option Labels := none
  N : Option Nat := none
  base_n_microstates : Option Nat := none
  C : Option CMat := none
  T : Option TMat := none
deriving Repr, DecidableEq

/-- State of a `BaseMacroMSM` object.  `base_is_sparse` mirrors
`self._base._is_sparse`, read when `_N >= 4000`; `is_sparse` itself is
initialized to `False` in `__init__` (line 161 of msm/base.py). -/
structure MacroSt where
  is_force_db : Bool
  is_reversible : Bool
  is_sparse : Bool
  base_is_sparse : Bool
  lag : Nat
  N : Option Nat := none
  base_n_macrostates : Option Nat := none
  labels : Option Labels := none
  metastable_labels : Option Labels := none
  C : Option CMat := none
  T : Option TMat := none
deriving Repr, DecidableEq

/-- `BaseMacroMSM.__init__` (lines 157-163 of msm/base.py): flags copied from
the BaseModel, `_is_sparse` hard-set to `False`, lag taken from the
microstate model. -/
def macroInit (base_db base_rev base_sparse : Bool) (micro : MicroSt) : MacroSt :=
  { is_force_db := base_db
    is_reversible := base_rev
    is_sparse := false
    base_is_sparse := base_sparse
    lag := micro.lag }

/-- Attributes a coarse-graining collaborator assigns on the BaseMacroMSM:
all of them assign `labels`; `pcca` and `hpca` may additionally assign a
transition matrix and metastable labels directly (spec section 6). -/
structure CGOut where
  labels : Labels
  metastable_labels : Option Labels := none
  T : Option TMat := none
deriving Repr

/-- External collaborators of the orchestration core (spec section 6):
clustering, classification, chain estimation, spectral analysis, scoring and
coarse graining.  They are parameters of the embedding; the claims hold for
every instantiation. -/
structure Ext where
  kneighborsFit : MicroSt → Labels
  gaussiannbFit : MicroSt → Labels
  kmeans : MicroSt → Centroids × Labels
  minibatchkmeans : MicroSt → Centroids × Labels
  kmedoids : MicroSt → Centroids × Labels
  countMatrix : Labels → Nat → Bool → CMat
  symT : CMat → TMat
  revT : CMat → TMat
  nonrevT : CMat → TMat
  kneighborsPredict : MicroSt → Mat → Labels
  gaussiannbPredict : MicroSt → Mat → Labels
  statDist : TMat → Bool → List Int
  eigenvalues : TMat → Option Nat → Option Nat → Bool → Bool → List Int
  mfpt : TMat → Nat → Nat → Bool → Int
  silhouette : Mat → Option Labels → Int
  gmm : MacroSt → MicroSt → Nat → CGOut
  hc : MacroSt → MicroSt → Nat → CGOut
  hmm : MacroSt → MicroSt → Nat → CGOut
  hpca : MacroSt → MicroSt → Nat → CGOut
  pcca : MacroSt → MicroSt → Nat → Nat → CGOut
  macroKneighborsPredict : MacroSt → Mat → Labels → Labels
  macroGaussiannbPredict : MacroSt → Mat → Labels → Labels

/-- The three-way estimator selection shared by `BaseMicroMSM.fit` (lines
57-63), `_transition_matrix` (lines 83-89) and `BaseMacroMSM.fit` (lines
205-211): reversible plus forced detailed balance selects the symmetric
estimator, reversible alone the reversible estimator, otherwise the
non-reversible maximum-likelihood estimator. -/
def estT (ext : Ext) (db rev : Bool) (C : CMat) : TMat :=
  if rev then (if db then ext.symT C else ext.revT C) else ext.nonrevT C

/-- Lag handling in `fit` (lines 49-53 of msm/base.py): an omitted lag reads
the stored one, a supplied lag overwrites it; afterwards the local `lag`
variable always equals `self.lag`. -/
def microActiveSt (st : MicroSt) (lagq : Option Nat) : MicroSt :=
  match lagq with
  | none => st
  | some v => {st with lag := v}

/-- `BaseMicroMSM.fit` lines 55-63: build the count matrix from `self.labels`
at the active lag (an AttributeError if `labels` was never assigned), then the
three-way transition-matrix estimation. -/
def microEstimateCore (ext : Ext) (st : MicroSt) : MicroSt × Option PyErr :=
  match st.labels with
  | none => (st, some noLabelsErr)
  | some ls =>
      ({st with
          C := some (ext.countMatrix ls st.lag st.is_sparse)
          T := some (estT ext st.is_force_db st.is_reversible
                      (ext.countMatrix ls st.lag st.is_sparse))}, none)

/-- Lag handling followed by count/transition-matrix estimation
(lines 49-63 of msm/base.py). -/
def microEstimate (ext : Ext) (st : MicroSt) (lagq : Option Nat) :
    MicroSt × Option PyErr :=
  microEstimateCore ext (microActiveSt st lagq)

/-- First classifier test of the centroid branch (line 30-31): a plain `if`,
not `elif`. -/
def microClassifyStep1 (ext : Ext) (st : MicroSt) (method : String) : MicroSt :=
  if pyLower method = "kneighborsclassifier" then
    {st with labels := some (ext.kneighborsFit st)}
  else st

/-- Second classifier test of the centroid branch (line 32-33). -/
def microClassifyStep2 (ext : Ext) (st : MicroSt) (method : String) : MicroSt :=
  if pyLower method = "gaussiannb" then
    {st with labels := some (ext.gaussiannbFit st)}
  else st

/-- Clustering dispatch of the state-count branch (lines 42-47): an
`if`/`elif` chain with no `else`, so an unrecognized method assigns nothing. -/
def microClusterStep (ext : Ext) (st : MicroSt) (method : String) : MicroSt :=
  if pyLower method = "kmeans" then
    {st with centroids := some (ext.kmeans st).1, labels := some (ext.kmeans st).2}
  else if pyLower method = "minibatchkmeans" then
    {st with centroids := some (ext.minibatchkmeans st).1,
             labels := some (ext.minibatchkmeans st).2}
  else if pyLower method = "kmedoids" then
    {st with centroids := some (ext.kmedoids st).1, labels := some (ext.kmedoids st).2}
  else st

/-- `BaseMicroMSM.fit` (lines 19-63 of msm/base.py).  `Nq`/`centroidsq`/`lagq`
are the optional arguments; `methodq` is the optional `method` keyword (the
remaining keywords — tol, max_iter, fraction, shuffle — are only read into
locals and forwarded to collaborators, with no effect on the orchestration
state).  Returns the mutated object state paired with the raised exception,
if any: Python mutates `self` in place, so assignments made before an
exception survive it. -/
def microFit (ext : Ext) (st : MicroSt) (Nq : Option Nat)
    (centroidsq : Option Centroids) (lagq : Option Nat)
    (methodq : Option String) : MicroSt × Option PyErr :=
  match Nq with
  | none =>
      match centroidsq with
      | none => (st, some neitherSuppliedErr)
      | some c =>
          microEstimate ext
            (microClassifyStep2 ext
              (microClassifyStep1 ext
                {st with centroids := some c, N := some c.length,
                         base_n_microstates := some c.length}
                (methodq.getD "KNeighborsClassifier"))
              (methodq.getD "KNeighborsClassifier"))
            lagq
  | some n =>
      microEstimate ext
        (microClusterStep ext
          {st with N := some n, base_n_microstates := some n}
          (methodq.getD "KMeans"))
        lagq

/-- One iteration of `BaseMicroMSM.update` (lines 139-144): for the key
`lag`, store the new lag, then recompute the count matrix from the existing
labels and the transition matrix via `_transition_matrix(lag=val)` (which
rebuilds the count matrix at that lag and applies the three-way estimator);
any other key does nothing.  An exception stops the loop. -/
def microUpdateStep (ext : Ext) (acc : MicroSt × Option PyErr)
    (kv : String × Nat) : MicroSt × Option PyErr :=
  match acc.2 with
  | some _ => acc
  | none =>
      if kv.1 = "lag" then
        match acc.1.labels with
        | none => ({acc.1 with lag := kv.2}, some noLabelsErr)
        | some ls =>
            ({acc.1 with
                lag := kv.2
                C := some (ext.countMatrix ls kv.2 acc.1.is_sparse)
                T := some (estT ext acc.1.is_force_db acc.1.is_reversible
                            (ext.countMatrix ls kv.2 acc.1.is_sparse))}, none)
      else acc

/-- `BaseMicroMSM.update(**kwargs)` (lines 139-144). -/
def microUpdate (ext : Ext) (st : MicroSt) (kwargs : List (String × Nat)) :
    MicroSt × Option PyErr :=
  kwargs.foldl (microUpdateStep ext) (st, none)

/-- `BaseMicroMSM.predict` (lines 66-73): raises before any fit (no
`centroids` attribute); an unrecognized method falls off the end of the
function and returns `None`. -/
def microPredict (ext : Ext) (st : MicroSt) (data : Mat) (method : String) :
    Except PyErr (Option Labels) :=
  if st.centroids.isNone then .error noFitMicroErr
  else if pyLower method = "kneighborsclassifier" then
    .ok (some (ext.kneighborsPredict st data))
  else if pyLower method = "gaussiannb" then
    .ok (some (ext.gaussiannbPredict st data))
  else .ok none

/-- `BaseMicroMSM.count_matrix` property (lines 91-97). -/
def microCountMatrixProp (st : MicroSt) : Except PyErr CMat :=
  match st.C with
  | some c => .ok c
  | none => .error noMicroInstanceErr

/-- `BaseMicroMSM.transition_matrix` property (lines 99-105). -/
def microTransitionMatrixProp (st : MicroSt) : Except PyErr TMat :=
  match st.T with
  | some t => .ok t
  | none => .error noMicroInstanceErr

/-- `BaseMicroMSM.stationary_distribution` (lines 111-113): reads `self._T`,
an AttributeError on an unfit model. -/
def microStationaryDistribution (ext : Ext) (st : MicroSt) :
    Except PyErr (List Int) :=
  match st.T with
  | none => .error microTMissingErr
  | some t => .ok (ext.statDist t st.is_sparse)

/-- `BaseMicroMSM.eigenvalues` (lines 115-116). -/
def microEigenvalues (ext : Ext) (st : MicroSt) (k ncv : Option Nat) :
    Except PyErr (List Int) :=
  match st.T with
  | none => .error microTMissingErr
  | some t => .ok (ext.eigenvalues t k ncv st.is_sparse st.is_reversible)

/-- `BaseMicroMSM.mfpt` (lines 127-128). -/
def microMfpt (ext : Ext) (st : MicroSt) (origin target : Nat) :
    Except PyErr Int :=
  match st.T with
  | none => .error microTMissingErr
  | some t => .ok (ext.mfpt t origin target st.is_sparse)

/-- `BaseMicroMSM.score` (lines 130-133): with no labels supplied it first
calls `self.predict(X)` with the default method. -/
def microScore (ext : Ext) (st : MicroSt) (X : Mat) (yq : Option Labels) :
    Except PyErr Int :=
  match yq with
  | some y => .ok (ext.silhouette X (some y))
  | none =>
      match microPredict ext st X "KNeighborsClassifier" with
      | .error e => .error e
      | .ok l => .ok (ext.silhouette X l)

/-- Apply the attributes a coarse-graining collaborator assigns on `self`:
`labels` always, `metastable_labels` and `_T` when produced. -/
def applyCG (st : MacroSt) (o : CGOut) : MacroSt :=
  { {st with labels := some o.labels} with
    metastable_labels :=
      match o.metastable_labels with
      | some ml => some ml
      | none => st.metastable_labels
    T :=
      match o.T with
      | some t => some t
      | none => st.T }

/-- `BaseMacroMSM.fit` method dispatch (lines 190-201 of msm/base.py): an
`if`/`elif` chain on `method.lower()` with an `else` that raises. -/
def macroDispatch (ext : Ext) (st : MacroSt) (micro : MicroSt)
    (n lag : Nat) (method : String) : Except PyErr MacroSt :=
  if pyLower method = "gmm" then .ok (applyCG st (ext.gmm st micro n))
  else if pyLower method = "hc" then .ok (applyCG st (ext.hc st micro n))
  else if pyLower method = "hmm" then .ok (applyCG st (ext.hmm st micro n))
  else if pyLower method = "hpca" then .ok (applyCG st (ext.hpca st micro n))
  else if pyLower method = "pcca" then .ok (applyCG st (ext.pcca st micro n lag))
  else .error (unknownMethodErr method)

/-- Result of a `BaseMacroMSM.fit` call: the mutated object state, whether
the non-fatal sparse advisory `warnings.warn` fired (lines 180-183), and the
raised exception if any. -/
structure MacroFitRes where
  st : MacroSt
  warned : Bool
  err : Option PyErr
deriving Repr, DecidableEq

/-- `BaseMacroMSM.fit` lines 190-211: dispatch, count matrix from
`self.labels`, then the transition-matrix guard
`not method.lower() == 'pcca' or not method.lower() == 'hpca'` controlling
re-estimation from counts. -/
def macroFinish (ext : Ext) (st : MacroSt) (micro : MicroSt) (n lag : Nat)
    (method : String) (warned : Bool) : MacroFitRes :=
  match macroDispatch ext st micro n lag method with
  | .error e => ⟨st, warned, some e⟩
  | .ok stD =>
      match stD.labels with
      | none => ⟨stD, warned, some macroNoLabelsErr⟩
      | some ls =>
          if ¬ (pyLower method = "pcca") ∨ ¬ (pyLower method = "hpca") then
            ⟨{stD with
                C := some (ext.countMatrix ls lag stD.is_sparse)
                T := some (estT ext stD.is_force_db stD.is_reversible
                            (ext.countMatrix ls lag stD.is_sparse))},
              warned, none⟩
          else
            ⟨{stD with C := some (ext.countMatrix ls lag stD.is_sparse)},
              warned, none⟩

/-- The state after the opening assignments of `BaseMacroMSM.fit`
(lines 166-172): `_N` and `_base.n_macrostates` are set unconditionally,
and a supplied lag overwrites `self.lag`, all before any validation. -/
def macroEntrySt (st : MacroSt) (n : Nat) (lagq : Option Nat) : MacroSt :=
  match lagq with
  | none => {st with N := some n, base_n_macrostates := some n}
  | some v => {st with N := some n, base_n_macrostates := some n, lag := v}

/-- `BaseMacroMSM.fit` (lines 165-211 of msm/base.py).  Returns the mutated
object state, whether the sparse advisory warning was emitted, and the raised
exception if any.  Python mutates `self` in place, so the assignments of
lines 166-172 survive a later exception. -/
def macroFit (ext : Ext) (st0 : MacroSt) (micro : MicroSt) (n : Nat)
    (lagq : Option Nat) (method : String) : MacroFitRes :=
  match micro.N with
  | none => ⟨macroEntrySt st0 n lagq, false, some microNMissingErr⟩
  | some mN =>
      if (n : Int) > (mN : Int) - 1 then
        ⟨macroEntrySt st0 n lagq, false, some tooManyMacroErr⟩
      else if 4000 ≤ n then
        macroFinish ext
          {macroEntrySt st0 n lagq with is_sparse := st0.base_is_sparse}
          micro n (macroEntrySt st0 n lagq).lag method (!st0.base_is_sparse)
      else if n < 4 then
        if (macroEntrySt st0 n lagq).is_sparse then
          ⟨macroEntrySt st0 n lagq, false, some tooFewSparseErr⟩
        else
          macroFinish ext (macroEntrySt st0 n lagq) micro n
            (macroEntrySt st0 n lagq).lag method false
      else
        macroFinish ext (macroEntrySt st0 n lagq) micro n
          (macroEntrySt st0 n lagq).lag method false

/-- `BaseMacroMSM.predict` (lines 214-221): requires fitted centroids on the
referenced microstate model, then classifies with `self.metastable_labels`;
an unrecognized method returns `None`. -/
def macroPredict (ext : Ext) (st : MacroSt) (micro : MicroSt) (data : Mat)
    (method : String) : Except PyErr (Option Labels) :=
  if micro.centroids.isNone then .error macroPredictUnfitErr
  else if pyLower method = "kneighborsclassifier" then
    match st.metastable_labels with
    | none => .error metastableMissingErr
    | some ml => .ok (some (ext.macroKneighborsPredict st data ml))
  else if pyLower method = "gaussiannb" then
    match st.metastable_labels with
    | none => .error metastableMissingErr
    | some ml => .ok (some (ext.macroGaussiannbPredict st data ml))
  else .ok none

/-- `BaseMacroMSM.count_matrix` property (lines 241-247). -/
def macroCountMatrixProp (st : MacroSt) : Except PyErr CMat :=
  match st.C with
  | some c => .ok c
  | none => .error noMacroInstanceErr

/-- `BaseMacroMSM.transition_matrix` property (lines 249-255). -/
def macroTransitionMatrixProp (st : MacroSt) : Except PyErr TMat :=
  match st.T with
  | some t => .ok t
  | none => .error noMacroInstanceErr

/-- `BaseMacroMSM.stationary_distribution` (lines 261-263). -/
def macroStationaryDistribution (ext : Ext) (st : MacroSt) :
    Except PyErr (List Int) :=
  match st.T with
  | none => .error macroTMissingErr
  | some t => .ok (ext.statDist t st.is_sparse)

/-- `BaseMacroMSM.eigenvalues` (lines 265-266). -/
def macroEigenvalues (ext : Ext) (st : MacroSt) (k ncv : Option Nat) :
    Except PyErr (List Int) :=
  match st.T with
  | none => .error macroTMissingErr
  | some t => .ok (ext.eigenvalues t k ncv st.is_sparse st.is_reversible)

/-- `BaseMacroMSM.mfpt` (lines 277-278). -/
def macroMfpt (ext : Ext) (st : MacroSt) (origin target : Nat) :
    Except PyErr Int :=
  match st.T with
  | none => .error macroTMissingErr
  | some t => .ok (ext.mfpt t origin target st.is_sparse)

/-- `BaseMacroMSM.score` (lines 280-281): reads `self._micro.centroids` and
`self.metastable_labels`, either an AttributeError when unfit. -/
def macroScore (ext : Ext) (st : MacroSt) (micro : MicroSt) :
    Except PyErr Int :=
  match micro.centroids with
  | none => .error microCentroidsMissingErr
  | some c =>
      match st.metastable_labels with
      | none => .error metastableMissingErr
      | some ml => .ok (ext.silhouette c (some ml))

/-- A numpy 2-D array: an explicit column count plus the rows (each of length
`ncols` for a well-formed array). -/
structure NPMat where
  ncols : Nat
  rows : List (List Int)
deriving Repr, DecidableEq

/-- All rows really have the declared width. -/
def NPMat.wf (m : NPMat) : Prop := ∀ r ∈ m.rows, r.length = m.ncols

instance (m : NPMat) : Decidable m.wf := by
  unfold NPMat.wf; infer_instance

/-- `np.concatenate` along axis 0 (line 17 of base.py): every dimension other
than the concatenation axis must match exactly, else a ValueError; the empty
list is also a ValueError. -/
def npConcat (data : List NPMat) : Except PyErr NPMat :=
  match data with
  | [] => .error concatEmptyErr
  | m :: _ =>
      if data.all (fun x => x.ncols = m.ncols) then
        .ok ⟨m.ncols, (data.map NPMat.rows).flatten⟩
      else .error concatMismatchErr

/-- Column `k` of a row list (entries of feature `k`). -/
def colVals (rows : List (List Int)) (k : Nat) : List Int :=
  rows.map (fun r => r.getD k 0)

def listMin : List Int → Int
  | [] => 0
  | x :: xs => xs.foldl min x

def listMax : List Int → Int
  | [] => 0
  | x :: xs => xs.foldl max x

/-- `np.column_stack([data_cat.min(0), data_cat.max(0)]).reshape(-1)`
(line 18 of base.py): the per-feature (min, max) pairs, flattened row-major
into `[min_0, max_0, min_1, max_1, ...]`. -/
def extentOf (m : NPMat) : List Int :=
  ((List.range m.ncols).map
    (fun k => [listMin (colVals m.rows k), listMax (colVals m.rows k)])).flatten

/-- State of a `BaseModel` after construction. -/
structure BaseSt where
  is_force_db : Bool
  is_reversible : Bool
  is_sparse : Bool
  lag : Nat
  n_sets : Nat
  n_samples : List Nat
  extent : List Int
  n_features : Nat
deriving Repr, DecidableEq

/-- `BaseModel.__init__` (lines 4-24 of base.py).  The concatenation (and the
min/max reduction feeding `extent`) run BEFORE the feature-width check of
lines 20-24, so numpy raises first on mismatched widths and on empty data;
the explicit AttributeError of lines 22-24 is reachable only if the
concatenation succeeded. -/
def baseModelInit (db rev sparse : Bool) (lag : Nat) (data : List NPMat) :
    Except PyErr BaseSt :=
  match npConcat data with
  | .error e => .error e
  | .ok cat =>
      if cat.rows.isEmpty then .error zeroSizeMinErr
      else
        match data.map NPMat.ncols with
        | [] => .error emptyIndexErr
        | f0 :: fs =>
            if (f0 :: fs).all (fun f => f = f0) then
              .ok { is_force_db := db
                    is_reversible := rev
                    is_sparse := sparse
                    lag := lag
                    n_sets := data.length
                    n_samples := data.map (fun m => m.rows.length)
                    extent := extentOf cat
                    n_features := f0 }
            else .error featuresMismatchErr

/-!
Concrete collaborator bundle and model states, used by the closed witness
and counterexample theorems.  The collaborators are deliberately simple but
pairwise distinguishable, so that dispatch and overwriting are observable.
-/

/-- A concrete, fully computable collaborator bundle. -/
def exExt : Ext :=
  { kneighborsFit := fun _ => [0, 1]
    gaussiannbFit := fun _ => [1, 0]
    kmeans := fun _ => ([[10]], [0, 0, 1])
    minibatchkmeans := fun _ => ([[11]], [0, 1, 1])
    kmedoids := fun _ => ([[12]], [1, 0, 0])
    countMatrix := fun ls lag _ => [[Int.ofNat ls.length, Int.ofNat lag]]
    symT := fun c => c.map (fun r => r.map (fun x => x + 100))
    revT := fun c => c.map (fun r => r.map (fun x => x + 200))
    nonrevT := fun c => c.map (fun r => r.map (fun x => x + 300))
    kneighborsPredict := fun _ _ => [7]
    gaussiannbPredict := fun _ _ => [8]
    statDist := fun t _ => t.map (fun r => r.headD 0)
    eigenvalues := fun t _ _ _ _ => t.map (fun r => r.headD 0)
    mfpt := fun _ _ _ _ => 0
    silhouette := fun _ _ => 0
    gmm := fun _ _ _ => { labels := [0] }
    hc := fun _ _ _ => { labels := [1] }
    hmm := fun _ _ _ => { labels := [2] }
    hpca := fun _ _ _ => { labels := [3], T := some [[77]] }
    pcca := fun _ _ _ _ =>
      { labels := [4], metastable_labels := some [4], T := some [[99]] }
    macroKneighborsPredict := fun _ _ ml => ml
    macroGaussiannbPredict := fun _ _ ml => ml }

/-- A never-fit microstate model (fresh from `__init__`). -/
def exMicroUnfit : MicroSt :=
  { is_force_db := false, is_reversible := true, is_sparse := false, lag := 1 }

/-- An already-fit microstate model with 3 microstates. -/
def exMicroFit : MicroSt :=
  { is_force_db := false
    is_reversible := true
    is_sparse := false
    lag := 1
    centroids := some [[0], [5], [9]]
    labels := some [0, 1, 2, 1]
    N := some 3
    base_n_microstates := some 3
    C := some [[4, 1]]
    T := some [[204, 201]] }

/-- A fitted microstate model with 4001 microstates (for the sparse-advisory
threshold). -/
def exMicroBig : MicroSt :=
  {exMicroFit with N := some 4001, base_n_microstates := some 4001}

/-- A never-fit macrostate model (fresh from `__init__`). -/
def exMacroUnfit : MacroSt := macroInit false true false exMicroFit

/-- An already-fit macrostate model (2 macrostates at lag 1). -/
def exMacroFit : MacroSt :=
  { is_force_db := false
    is_reversible := true
    is_sparse := false
    base_is_sparse := false
    lag := 1
    N := some 2
    base_n_macrostates := some 2
    labels := some [4]
    metastable_labels := some [4]
    C := some [[1, 1]]
    T := some [[201, 201]] }

/-!  Helper lemmas shared by the claim theorems.  -/

/-- No string equals both "pcca" and "hpca", so the guard of line 204 of
msm/base.py is true for every method string. -/
theorem pcca_hpca_guard_true (s : String) : ¬ (s = "pcca") ∨ ¬ (s = "hpca") := by
  by_cases h : s = "pcca"
  · right
    intro h2
    rw [h] at h2
    exact absurd h2 (by decide)
  · left
    exact h

/-- On every successful `macroFinish`, the count matrix is set and the
transition matrix is the three-way estimate of that count matrix: the
line-204 guard is always true, so the re-estimation branch always runs. -/
theorem macroFinish_reestimates (ext : Ext) (st : MacroSt) (micro : MicroSt)
    (n lag : Nat) (method : String) (warned : Bool)
    (h : (macroFinish ext st micro n lag method warned).err = none) :
    (macroFinish ext st micro n lag method warned).st.C.isSome = true ∧
    (macroFinish ext st micro n lag method warned).st.T =
      Option.map
        (estT ext (macroFinish ext st micro n lag method warned).st.is_force_db
          (macroFinish ext st micro n lag method warned).st.is_reversible)
        (macroFinish ext st micro n lag method warned).st.C := by
  rcases hD : macroDispatch ext st micro n lag method with e | stD
  · simp [macroFinish, hD] at h
  · rcases hL : stD.labels with _ | ls
    · simp [macroFinish, hD, hL] at h
    · simp [macroFinish, hD, hL, if_pos (pcca_hpca_guard_true (pyLower method))]

/-- Every `macroFit` call that raises no exception went through
`macroFinish`. -/
theorem macroFit_err_none_finish (ext : Ext) (st0 : MacroSt) (micro : MicroSt)
    (n : Nat) (lagq : Option Nat) (method : String)
    (h : (macroFit ext st0 micro n lagq method).err = none) :
    ∃ st lag warned, macroFit ext st0 micro n lagq method =
      macroFinish ext st micro n lag method warned := by
  rcases hN : micro.N with _ | mN
  · simp [macroFit, hN] at h
  · by_cases hgt : (n : Int) > (mN : Int) - 1
    · simp [macroFit, hN, if_pos hgt] at h
    · by_cases h4k : 4000 ≤ n
      · exact ⟨{macroEntrySt st0 n lagq with is_sparse := st0.base_is_sparse},
          (macroEntrySt st0 n lagq).lag, !st0.base_is_sparse,
          by simp [macroFit, hN, if_neg hgt, if_pos h4k]⟩
      · by_cases h4 : n < 4
        · by_cases hsp : (macroEntrySt st0 n lagq).is_sparse
          · simp [macroFit, hN, if_neg hgt, if_neg h4k, if_pos h4, if_pos hsp] at h
          · exact ⟨macroEntrySt st0 n lagq, (macroEntrySt st0 n lagq).lag, false, by
              simp [macroFit, hN, if_neg hgt, if_neg h4k, if_pos h4, if_neg hsp]⟩
        · exact ⟨macroEntrySt st0 n lagq, (macroEntrySt st0 n lagq).lag, false, by
            simp [macroFit, hN, if_neg hgt, if_neg h4k, if_neg h4]⟩

/-- Claim C1: in `BaseMacroMSM.fit` the guard
`not method.lower() == 'pcca' or not method.lower() == 'hpca'` is true for
every method string (no string equals both constants), so every successful
fit — the `pcca` and `hpca` methods included — re-estimates the transition
matrix from the count matrix with the three-way estimator, overwriting any
transition matrix the coarse-graining step produced directly. -/
theorem claimC1_macro_reestimation_unconditional
    (ext : Ext) (st0 : MacroSt) (micro : MicroSt) (n : Nat)
    (lagq : Option Nat) (method : String)
    (h : (macroFit ext st0 micro n lagq method).err = none) :
    (¬ (pyLower method = "pcca") ∨ ¬ (pyLower method = "hpca")) ∧
    (macroFit ext st0 micro n lagq method).st.C.isSome = true ∧
    (macroFit ext st0 micro n lagq method).st.T =
      Option.map
        (estT ext (macroFit ext st0 micro n lagq method).st.is_force_db
          (macroFit ext st0 micro n lagq method).st.is_reversible)
        (macroFit ext st0 micro n lagq method).st.C := by
  refine ⟨pcca_hpca_guard_true (pyLower method), ?_⟩
  rcases macroFit_err_none_finish ext st0 micro n lagq method h with ⟨st, lag, w, hEq⟩
  rw [hEq] at h ⊢
  exact macroFinish_reestimates ext st micro n lag method w h

/-- Witness for C1: a concrete fit with method "PCCA", whose coarse-graining
collaborator returns the transition matrix [[99]] directly, succeeds and ends
with the re-estimated transition matrix instead. -/
theorem claimC1_witness :
    (macroFit exExt exMacroUnfit exMicroFit 2 none "PCCA").err = none ∧
    ((¬ (pyLower "PCCA" = "pcca") ∨ ¬ (pyLower "PCCA" = "hpca")) ∧
      (macroFit exExt exMacroUnfit exMicroFit 2 none "PCCA").st.C.isSome = true ∧
      (macroFit exExt exMacroUnfit exMicroFit 2 none "PCCA").st.T =
        Option.map
          (estT exExt (macroFit exExt exMacroUnfit exMicroFit 2 none "PCCA").st.is_force_db
            (macroFit exExt exMacroUnfit exMicroFit 2 none "PCCA").st.is_reversible)
          (macroFit exExt exMacroUnfit exMicroFit 2 none "PCCA").st.C) :=
  ⟨by decide,
    claimC1_macro_reestimation_unconditional exExt exMacroUnfit exMicroFit 2 none "PCCA"
      (by decide)⟩

@[simp] theorem microActiveSt_labels (st : MicroSt) (lagq : Option Nat) :
    (microActiveSt st lagq).labels = st.labels := by
  cases lagq <;> rfl

theorem microEstimateCore_labels_none (ext : Ext) (st : MicroSt)
    (h : st.labels = none) :
    microEstimateCore ext st = (st, some noLabelsErr) := by
  simp [microEstimateCore, h]

/-- Every `microFit` call that raises no exception ran
`microEstimateCore` on some intermediate state and returned its result. -/
theorem microFit_err_none_core (ext : Ext) (st : MicroSt) (Nq : Option Nat)
    (cq : Option Centroids) (lagq : Option Nat) (mq : Option String)
    (h : (microFit ext st Nq cq lagq mq).2 = none) :
    ∃ st2, microFit ext st Nq cq lagq mq = microEstimateCore ext st2 := by
  rcases Nq with _ | n
  · rcases cq with _ | c
    · simp [microFit] at h
    · exact ⟨_, rfl⟩
  · exact ⟨_, rfl⟩

/-- On every successful `microEstimateCore`, the count matrix is set and the
transition matrix is selected by the two construction-time booleans. -/
theorem microEstimateCore_shape (ext : Ext) (st : MicroSt)
    (h : (microEstimateCore ext st).2 = none) :
    (microEstimateCore ext st).1.C.isSome = true ∧
    ((microEstimateCore ext st).1.is_reversible = true →
      (microEstimateCore ext st).1.is_force_db = true →
      (microEstimateCore ext st).1.T =
        Option.map ext.symT (microEstimateCore ext st).1.C) ∧
    ((microEstimateCore ext st).1.is_reversible = true →
      (microEstimateCore ext st).1.is_force_db = false →
      (microEstimateCore ext st).1.T =
        Option.map ext.revT (microEstimateCore ext st).1.C) ∧
    ((microEstimateCore ext st).1.is_reversible = false →
      (microEstimateCore ext st).1.T =
        Option.map ext.nonrevT (microEstimateCore ext st).1.C) := by
  rcases hL : st.labels with _ | ls
  · simp [microEstimateCore, hL] at h
  · refine ⟨by simp [microEstimateCore, hL], ?_, ?_, ?_⟩
    · intro hrev hdb
      simp only [microEstimateCore, hL] at hrev hdb ⊢
      simp_all [estT]
    · intro hrev hdb
      simp only [microEstimateCore, hL] at hrev hdb ⊢
      simp_all [estT]
    · intro hrev
      simp only [microEstimateCore, hL] at hrev ⊢
      simp_all [estT]

/-- Claim C5: for every successful `BaseMicroMSM.fit`, the transition matrix
is computed from the count matrix by exactly one of three mutually exclusive
estimators selected by the two construction-time booleans: reversible with
forced detailed balance gives the symmetric estimator, reversible without it
the reversible estimator, non-reversible the non-reversible
maximum-likelihood estimator. -/
theorem claimC5_micro_estimator_selection
    (ext : Ext) (st : MicroSt) (Nq : Option Nat) (cq : Option Centroids)
    (lagq : Option Nat) (mq : Option String)
    (h : (microFit ext st Nq cq lagq mq).2 = none) :
    (microFit ext st Nq cq lagq mq).1.C.isSome = true ∧
    ((microFit ext st Nq cq lagq mq).1.is_reversible = true →
      (microFit ext st Nq cq lagq mq).1.is_force_db = true →
      (microFit ext st Nq cq lagq mq).1.T =
        Option.map ext.symT (microFit ext st Nq cq lagq mq).1.C) ∧
    ((microFit ext st Nq cq lagq mq).1.is_reversible = true →
      (microFit ext st Nq cq lagq mq).1.is_force_db = false →
      (microFit ext st Nq cq lagq mq).1.T =
        Option.map ext.revT (microFit ext st Nq cq lagq mq).1.C) ∧
    ((microFit ext st Nq cq lagq mq).1.is_reversible = false →
      (microFit ext st Nq cq lagq mq).1.T =
        Option.map ext.nonrevT (microFit ext st Nq cq lagq mq).1.C) := by
  rcases microFit_err_none_core ext st Nq cq lagq mq h with ⟨st2, hEq⟩
  rw [hEq] at h ⊢
  exact microEstimateCore_shape ext st2 h

/-- Witness for C5: a concrete reversible, non-detailed-balance fit succeeds
and its transition matrix is the reversible estimate of its count matrix. -/
theorem claimC5_witness :
    (microFit exExt exMicroUnfit (some 3) none none none).2 = none ∧
    ((microFit exExt exMicroUnfit (some 3) none none none).1.C.isSome = true ∧
      ((microFit exExt exMicroUnfit (some 3) none none none).1.is_reversible = true →
        (microFit exExt exMicroUnfit (some 3) none none none).1.is_force_db = true →
        (microFit exExt exMicroUnfit (some 3) none none none).1.T =
          Option.map exExt.symT (microFit exExt exMicroUnfit (some 3) none none none).1.C) ∧
      ((microFit exExt exMicroUnfit (some 3) none none none).1.is_reversible = true →
        (microFit exExt exMicroUnfit (some 3) none none none).1.is_force_db = false →
        (microFit exExt exMicroUnfit (some 3) none none none).1.T =
          Option.map exExt.revT (microFit exExt exMicroUnfit (some 3) none none none).1.C) ∧
      ((microFit exExt exMicroUnfit (some 3) none none none).1.is_reversible = false →
        (microFit exExt exMicroUnfit (some 3) none none none).1.T =
          Option.map exExt.nonrevT (microFit exExt exMicroUnfit (some 3) none none none).1.C)) :=
  ⟨by decide,
    claimC5_micro_estimator_selection exExt exMicroUnfit (some 3) none none none (by decide)⟩

theorem microUpdate_no_lag_key (ext : Ext) (st : MicroSt)
    (kwargs : List (String × Nat)) (h : ∀ kv ∈ kwargs, kv.1 ≠ "lag") :
    microUpdate ext st kwargs = (st, none) := by
  induction kwargs with
  | nil => rfl
  | cons kv rest ih =>
      have h1 : kv.1 ≠ "lag" := h kv (List.mem_cons_self kv rest)
      show List.foldl (microUpdateStep ext) (microUpdateStep ext (st, none) kv) rest = _
      rw [show microUpdateStep ext (st, none) kv = (st, none) by
        simp [microUpdateStep, h1]]
      exact ih (fun k hk => h k (List.mem_cons_of_mem _ hk))

/-- Claim C6: on a fitted microstate model, `update(lag=v)` stores the new
lag and recomputes only the count and transition matrices from the existing
labels (labels, centroids and state count untouched), and an update whose
keys never include `lag` changes nothing at all. -/
theorem claimC6_update_lag_only (ext : Ext) (st : MicroSt) (v : Nat)
    (ls : Labels) (hls : st.labels = some ls) :
    (microUpdate ext st [("lag", v)] =
      ({st with
          lag := v
          C := some (ext.countMatrix ls v st.is_sparse)
          T := some (estT ext st.is_force_db st.is_reversible
                      (ext.countMatrix ls v st.is_sparse))}, none)) ∧
    (∀ kwargs : List (String × Nat), (∀ kv ∈ kwargs, kv.1 ≠ "lag") →
      microUpdate ext st kwargs = (st, none)) := by
  constructor
  · simp [microUpdate, microUpdateStep, hls]
  · exact microUpdate_no_lag_key ext st

/-- Witness for C6: a concrete `update(lag=5)` on the fitted example model
recomputes the matrices at lag 5 and leaves labels and centroids as they
were, and `update(tol=3)` changes nothing. -/
theorem claimC6_witness :
    exMicroFit.labels = some [0, 1, 2, 1] ∧
    ((microUpdate exExt exMicroFit [("lag", 5)] =
      ({exMicroFit with
          lag := 5
          C := some (exExt.countMatrix [0, 1, 2, 1] 5 exMicroFit.is_sparse)
          T := some (estT exExt exMicroFit.is_force_db exMicroFit.is_reversible
                      (exExt.countMatrix [0, 1, 2, 1] 5 exMicroFit.is_sparse))}, none)) ∧
    (∀ kwargs : List (String × Nat), (∀ kv ∈ kwargs, kv.1 ≠ "lag") →
      microUpdate exExt exMicroFit kwargs = (exMicroFit, none))) :=
  ⟨rfl, claimC6_update_lag_only exExt exMicroFit 5 [0, 1, 2, 1] rfl⟩

/-- Claim C9: supplying both `N` and `centroids` to `BaseMicroMSM.fit` raises
no mutual-exclusion error: the call is identical to supplying `N` alone
(the `centroids` argument is read only in the `N is None` branch), and with
the default `KMeans` method it succeeds with the clustering collaborator's
centroids and labels, not the supplied ones. -/
theorem claimC9_both_args_centroids_ignored (ext : Ext) (st : MicroSt)
    (n : Nat) (c : Centroids) (lagq : Option Nat) (mq : Option String) :
    microFit ext st (some n) (some c) lagq mq =
      microFit ext st (some n) none lagq mq ∧
    (pyLower (mq.getD "KMeans") = "kmeans" →
      (microFit ext st (some n) (some c) lagq mq).2 = none ∧
      (microFit ext st (some n) (some c) lagq mq).1.centroids =
        some (ext.kmeans {st with N := some n, base_n_microstates := some n}).1 ∧
      (microFit ext st (some n) (some c) lagq mq).1.labels =
        some (ext.kmeans {st with N := some n, base_n_microstates := some n}).2) := by
  refine ⟨rfl, fun hm => ?_⟩
  cases lagq <;>
    simp [microFit, microEstimate, microEstimateCore, microActiveSt,
      microClusterStep, hm]

/-- Witness for C9: with 3 states and explicit centroids both supplied, the
concrete fit succeeds, ignores the supplied centroids `[[55]]`, and stores
the k-means output instead. -/
theorem claimC9_witness :
    microFit exExt exMicroUnfit (some 3) (some [[55]]) none none =
      microFit exExt exMicroUnfit (some 3) none none none ∧
    (pyLower ((none : Option String).getD "KMeans") = "kmeans" →
      (microFit exExt exMicroUnfit (some 3) (some [[55]]) none none).2 = none ∧
      (microFit exExt exMicroUnfit (some 3) (some [[55]]) none none).1.centroids =
        some (exExt.kmeans {exMicroUnfit with N := some 3, base_n_microstates := some 3}).1 ∧
      (microFit exExt exMicroUnfit (some 3) (some [[55]]) none none).1.labels =
        some (exExt.kmeans {exMicroUnfit with N := some 3, base_n_microstates := some 3}).2) :=
  claimC9_both_args_centroids_ignored exExt exMicroUnfit 3 [[55]] none none

/-- Claim C10: `BaseMicroMSM.fit` never validates its method string.  With an
unrecognized method no dispatch branch runs and no ConfigurationError is
raised at dispatch: on a previously unfit model the state count (and, in the
centroid branch, the centroids) are already overwritten, `labels` is never
assigned, and the call fails at the count-matrix step reading the missing
`labels` attribute. -/
theorem claimC10_micro_unknown_method_no_validation (ext : Ext) (st : MicroSt)
    (n : Nat) (c : Centroids) (lagq : Option Nat) (m : String)
    (hl : st.labels = none)
    (hA1 : ¬ (pyLower m = "kmeans")) (hA2 : ¬ (pyLower m = "minibatchkmeans"))
    (hA3 : ¬ (pyLower m = "kmedoids"))
    (hB1 : ¬ (pyLower m = "kneighborsclassifier"))
    (hB2 : ¬ (pyLower m = "gaussiannb")) :
    microFit ext st (some n) none lagq (some m) =
      (microActiveSt {st with N := some n, base_n_microstates := some n} lagq,
        some noLabelsErr) ∧
    microFit ext st none (some c) lagq (some m) =
      (microActiveSt
        {st with centroids := some c, N := some c.length,
                 base_n_microstates := some c.length} lagq,
        some noLabelsErr) := by
  constructor
  · have hstep : microClusterStep ext
        {st with N := some n, base_n_microstates := some n}
        ((some m).getD "KMeans") =
        {st with N := some n, base_n_microstates := some n} := by
      simp [microClusterStep, hA1, hA2, hA3]
    simp only [microFit, microEstimate, hstep]
    exact microEstimateCore_labels_none ext _ (by simp [hl])
  · have hstep : microClassifyStep2 ext (microClassifyStep1 ext
        {st with centroids := some c, N := some c.length,
                 base_n_microstates := some c.length}
        ((some m).getD "KNeighborsClassifier")) ((some m).getD "KNeighborsClassifier") =
        {st with centroids := some c, N := some c.length,
                 base_n_microstates := some c.length} := by
      simp [microClassifyStep1, microClassifyStep2, hB1, hB2]
    simp only [microFit, microEstimate, hstep]
    exact microEstimateCore_labels_none ext _ (by simp [hl])

/-- Witness for C10: fitting the unfit example model with method "Spectral"
fails reading `labels`, in both the state-count and the centroid branch, with
the state count already overwritten. -/
theorem claimC10_witness :
    exMicroUnfit.labels = none ∧
    (microFit exExt exMicroUnfit (some 3) none none (some "Spectral") =
      (microActiveSt {exMicroUnfit with N := some 3, base_n_microstates := some 3} none,
        some noLabelsErr) ∧
    microFit exExt exMicroUnfit none (some [[1], [2]]) none (some "Spectral") =
      (microActiveSt
        {exMicroUnfit with
          centroids := some [[1], [2]]
          N := some ([[1], [2]] : Centroids).length
          base_n_microstates := some ([[1], [2]] : Centroids).length} none,
        some noLabelsErr)) :=
  ⟨rfl, claimC10_micro_unknown_method_no_validation exExt exMicroUnfit 3 [[1], [2]] none
    "Spectral" rfl (by decide) (by decide) (by decide) (by decide) (by decide)⟩

@[simp] theorem macroEntrySt_is_sparse (st : MacroSt) (n : Nat) (lagq : Option Nat) :
    (macroEntrySt st n lagq).is_sparse = st.is_sparse := by
  cases lagq <;> rfl

@[simp] theorem applyCG_labels (st : MacroSt) (o : CGOut) :
    (applyCG st o).labels = some o.labels := rfl

/-- A recognized method makes `macroFinish` succeed, preserving the warning
flag. -/
theorem macroFinish_recognized_err_none (ext : Ext) (st : MacroSt)
    (micro : MicroSt) (n lag : Nat) (method : String) (warned : Bool)
    (h : pyLower method = "gmm" ∨ pyLower method = "hc" ∨
      pyLower method = "hmm" ∨ pyLower method = "hpca" ∨
      pyLower method = "pcca") :
    (macroFinish ext st micro n lag method warned).err = none ∧
    (macroFinish ext st micro n lag method warned).warned = warned := by
  have hg := pcca_hpca_guard_true (pyLower method)
  rcases h with h | h | h | h | h <;>
    simp [macroFinish, macroDispatch, h, if_pos hg]

/-- When the macrostate count passes validation, is below 4000 and the model
is not sparse, `BaseMacroMSM.fit` reduces to dispatch plus estimation on the
entry state. -/
theorem macroFit_mid_eq (ext : Ext) (st0 : MacroSt) (micro : MicroSt)
    (n : Nat) (lagq : Option Nat) (method : String) (mN : Nat)
    (hmN : micro.N = some mN) (hgt : ¬ ((n : Int) > (mN : Int) - 1))
    (h4k : ¬ 4000 ≤ n) (hsp : st0.is_sparse = false) :
    macroFit ext st0 micro n lagq method =
      macroFinish ext (macroEntrySt st0 n lagq) micro n
        (macroEntrySt st0 n lagq).lag method false := by
  by_cases h4 : n < 4 <;>
    simp [macroFit, hmN, if_neg hgt, if_neg h4k, h4, hsp]

/-- Claim C3: `BaseMacroMSM.fit` raises the macrostate-count
ConfigurationError whenever `n_macrostates > n_microstates - 1`; raises the
too-few-for-sparse ConfigurationError whenever `n_macrostates < 4` and the
macrostate model's representation is sparse; and with `n_macrostates ≥ 4000`
on a dense representation it emits the non-fatal sparse advisory and, for any
recognized method, the fit still succeeds. -/
theorem claimC3_macro_fit_validation (ext : Ext) (st0 : MacroSt)
    (micro : MicroSt) (n : Nat) (lagq : Option Nat) (method : String)
    (mN : Nat) (hmN : micro.N = some mN) :
    ((n : Int) > (mN : Int) - 1 →
      (macroFit ext st0 micro n lagq method).err = some tooManyMacroErr) ∧
    (¬ ((n : Int) > (mN : Int) - 1) → n < 4 → st0.is_sparse = true →
      (macroFit ext st0 micro n lagq method).err = some tooFewSparseErr) ∧
    (¬ ((n : Int) > (mN : Int) - 1) → 4000 ≤ n → st0.base_is_sparse = false →
      (pyLower method = "gmm" ∨ pyLower method = "hc" ∨
        pyLower method = "hmm" ∨ pyLower method = "hpca" ∨
        pyLower method = "pcca") →
      (macroFit ext st0 micro n lagq method).warned = true ∧
      (macroFit ext st0 micro n lagq method).err = none) := by
  refine ⟨fun hgt => ?_, fun hgt h4 hsp => ?_, fun hgt h4k hbase hm => ?_⟩
  · simp [macroFit, hmN, if_pos hgt]
  · have h4k : ¬ 4000 ≤ n := by omega
    simp [macroFit, hmN, if_neg hgt, if_neg h4k, h4, hsp]
  · have hEq : macroFit ext st0 micro n lagq method =
        macroFinish ext
          {macroEntrySt st0 n lagq with is_sparse := st0.base_is_sparse}
          micro n (macroEntrySt st0 n lagq).lag method (!st0.base_is_sparse) := by
      simp [macroFit, hmN, if_neg hgt, if_pos h4k]
    rw [hEq]
    rcases macroFinish_recognized_err_none ext
      {macroEntrySt st0 n lagq with is_sparse := st0.base_is_sparse}
      micro n (macroEntrySt st0 n lagq).lag method (!st0.base_is_sparse) hm with
      ⟨he, hw⟩
    refine ⟨?_, he⟩
    rw [hw, hbase]
    rfl

/-- Witness for C3: the three validation behaviors at concrete inputs — a
count of 7 against 3 microstates raises; a count of 3 on a sparse macrostate
model raises; a count of 4000 against 4001 microstates on a dense model warns
and succeeds. -/
theorem claimC3_witness :
    exMicroBig.N = some 4001 ∧
    (((4000 : Nat) : Int) > ((4001 : Nat) : Int) - 1 →
      (macroFit exExt exMacroUnfit exMicroBig 4000 none "PCCA").err =
        some tooManyMacroErr) ∧
    (¬ (((4000 : Nat) : Int) > ((4001 : Nat) : Int) - 1) → 4000 < 4 →
      exMacroUnfit.is_sparse = true →
      (macroFit exExt exMacroUnfit exMicroBig 4000 none "PCCA").err =
        some tooFewSparseErr) ∧
    (¬ (((4000 : Nat) : Int) > ((4001 : Nat) : Int) - 1) → 4000 ≤ 4000 →
      exMacroUnfit.base_is_sparse = false →
      (pyLower "PCCA" = "gmm" ∨ pyLower "PCCA" = "hc" ∨
        pyLower "PCCA" = "hmm" ∨ pyLower "PCCA" = "hpca" ∨
        pyLower "PCCA" = "pcca") →
      (macroFit exExt exMacroUnfit exMicroBig 4000 none "PCCA").warned = true ∧
      (macroFit exExt exMacroUnfit exMicroBig 4000 none "PCCA").err = none) :=
  ⟨rfl, claimC3_macro_fit_validation exExt exMacroUnfit exMicroBig 4000 none
    "PCCA" 4001 rfl⟩

/-- Claim C8: `BaseMacroMSM.fit` dispatches to exactly one coarse-graining
algorithm, selected case-insensitively among gmm, hc, hmm, hpca, pcca, and
raises ConfigurationError for every method string outside that set. -/
theorem claimC8_macro_dispatch (ext : Ext) (st0 : MacroSt) (micro : MicroSt)
    (n : Nat) (lagq : Option Nat) (method : String) (mN : Nat)
    (hmN : micro.N = some mN) (hgt : ¬ ((n : Int) > (mN : Int) - 1))
    (h4k : ¬ 4000 ≤ n) (hsp : st0.is_sparse = false) :
    (pyLower method = "gmm" →
      (macroFit ext st0 micro n lagq method).st.labels =
        some (ext.gmm (macroEntrySt st0 n lagq) micro n).labels) ∧
    (pyLower method = "hc" →
      (macroFit ext st0 micro n lagq method).st.labels =
        some (ext.hc (macroEntrySt st0 n lagq) micro n).labels) ∧
    (pyLower method = "hmm" →
      (macroFit ext st0 micro n lagq method).st.labels =
        some (ext.hmm (macroEntrySt st0 n lagq) micro n).labels) ∧
    (pyLower method = "hpca" →
      (macroFit ext st0 micro n lagq method).st.labels =
        some (ext.hpca (macroEntrySt st0 n lagq) micro n).labels) ∧
    (pyLower method = "pcca" →
      (macroFit ext st0 micro n lagq method).st.labels =
        some (ext.pcca (macroEntrySt st0 n lagq) micro n
          (macroEntrySt st0 n lagq).lag).labels) ∧
    (¬ (pyLower method = "gmm") → ¬ (pyLower method = "hc") →
      ¬ (pyLower method = "hmm") → ¬ (pyLower method = "hpca") →
      ¬ (pyLower method = "pcca") →
      (macroFit ext st0 micro n lagq method).err =
        some (unknownMethodErr method)) := by
  rw [macroFit_mid_eq ext st0 micro n lagq method mN hmN hgt h4k hsp]
  have hg := pcca_hpca_guard_true (pyLower method)
  refine ⟨fun h => ?_, fun h => ?_, fun h => ?_, fun h => ?_, fun h => ?_,
    fun h1 h2 h3 h4 h5 => ?_⟩ <;>
    simp [macroFinish, macroDispatch, if_pos hg, *]

/-- Witness for C8: at a concrete state, method "HC" (case-insensitively)
stores the hierarchical-clustering labels, and everything needed of the
hypotheses holds. -/
theorem claimC8_witness :
    exMicroFit.N = some 3 ∧
    ((pyLower "HC" = "gmm" →
      (macroFit exExt exMacroUnfit exMicroFit 2 none "HC").st.labels =
        some (exExt.gmm (macroEntrySt exMacroUnfit 2 none) exMicroFit 2).labels) ∧
    (pyLower "HC" = "hc" →
      (macroFit exExt exMacroUnfit exMicroFit 2 none "HC").st.labels =
        some (exExt.hc (macroEntrySt exMacroUnfit 2 none) exMicroFit 2).labels) ∧
    (pyLower "HC" = "hmm" →
      (macroFit exExt exMacroUnfit exMicroFit 2 none "HC").st.labels =
        some (exExt.hmm (macroEntrySt exMacroUnfit 2 none) exMicroFit 2).labels) ∧
    (pyLower "HC" = "hpca" →
      (macroFit exExt exMacroUnfit exMicroFit 2 none "HC").st.labels =
        some (exExt.hpca (macroEntrySt exMacroUnfit 2 none) exMicroFit 2).labels) ∧
    (pyLower "HC" = "pcca" →
      (macroFit exExt exMacroUnfit exMicroFit 2 none "HC").st.labels =
        some (exExt.pcca (macroEntrySt exMacroUnfit 2 none) exMicroFit 2
          (macroEntrySt exMacroUnfit 2 none).lag).labels) ∧
    (¬ (pyLower "HC" = "gmm") → ¬ (pyLower "HC" = "hc") →
      ¬ (pyLower "HC" = "hmm") → ¬ (pyLower "HC" = "hpca") →
      ¬ (pyLower "HC" = "pcca") →
      (macroFit exExt exMacroUnfit exMicroFit 2 none "HC").err =
        some (unknownMethodErr "HC"))) :=
  ⟨rfl, claimC8_macro_dispatch exExt exMacroUnfit exMicroFit 2 none "HC" 3 rfl
    (by decide) (by decide) rfl⟩

/-- Claim C7: every derived query on a model on which no fit has succeeded
raises (what the spec calls NotFittedError): count-matrix and
transition-matrix properties, stationary distribution, eigenvalues, mean
first passage time, score and predict, on both layers; `BaseMicroMSM.predict`
raises without centroids and `BaseMacroMSM.predict` raises when the
referenced microstate model carries no fitted centroids. -/
theorem claimC7_unfit_queries_raise (ext : Ext) (st : MicroSt) (mst : MacroSt)
    (X : Mat) (method : String) (k ncv : Option Nat) (origin target : Nat)
    (hC : st.C = none) (hT : st.T = none) (hcen : st.centroids = none)
    (hmC : mst.C = none) (hmT : mst.T = none)
    (_hmeta : mst.metastable_labels = none) :
    microCountMatrixProp st = .error noMicroInstanceErr ∧
    microTransitionMatrixProp st = .error noMicroInstanceErr ∧
    microStationaryDistribution ext st = .error microTMissingErr ∧
    microEigenvalues ext st k ncv = .error microTMissingErr ∧
    microMfpt ext st origin target = .error microTMissingErr ∧
    microScore ext st X none = .error noFitMicroErr ∧
    microPredict ext st X method = .error noFitMicroErr ∧
    macroCountMatrixProp mst = .error noMacroInstanceErr ∧
    macroTransitionMatrixProp mst = .error noMacroInstanceErr ∧
    macroStationaryDistribution ext mst = .error macroTMissingErr ∧
    macroEigenvalues ext mst k ncv = .error macroTMissingErr ∧
    macroMfpt ext mst origin target = .error macroTMissingErr ∧
    macroScore ext mst st = .error microCentroidsMissingErr ∧
    macroPredict ext mst st X method = .error macroPredictUnfitErr := by
  refine ⟨?_, ?_, ?_, ?_, ?_, ?_, ?_, ?_, ?_, ?_, ?_, ?_, ?_, ?_⟩ <;>
    simp [microCountMatrixProp, microTransitionMatrixProp,
      microStationaryDistribution, microEigenvalues, microMfpt, microScore,
      microPredict, macroCountMatrixProp, macroTransitionMatrixProp,
      macroStationaryDistribution, macroEigenvalues, macroMfpt, macroScore,
      macroPredict, hC, hT, hcen, hmC, hmT]

/-- Witness for C7: the queries on the concrete never-fit models all raise. -/
theorem claimC7_witness :
    (exMicroUnfit.C = none ∧ exMicroUnfit.T = none ∧
      exMicroUnfit.centroids = none) ∧
    (microCountMatrixProp exMicroUnfit = .error noMicroInstanceErr ∧
    microTransitionMatrixProp exMicroUnfit = .error noMicroInstanceErr ∧
    microStationaryDistribution exExt exMicroUnfit = .error microTMissingErr ∧
    microEigenvalues exExt exMicroUnfit none none = .error microTMissingErr ∧
    microMfpt exExt exMicroUnfit 0 1 = .error microTMissingErr ∧
    microScore exExt exMicroUnfit [[0]] none = .error noFitMicroErr ∧
    microPredict exExt exMicroUnfit [[0]] "KNeighborsClassifier" =
      .error noFitMicroErr ∧
    macroCountMatrixProp exMacroUnfit = .error noMacroInstanceErr ∧
    macroTransitionMatrixProp exMacroUnfit = .error noMacroInstanceErr ∧
    macroStationaryDistribution exExt exMacroUnfit = .error macroTMissingErr ∧
    macroEigenvalues exExt exMacroUnfit none none = .error macroTMissingErr ∧
    macroMfpt exExt exMacroUnfit 0 1 = .error macroTMissingErr ∧
    macroScore exExt exMacroUnfit exMicroUnfit = .error microCentroidsMissingErr ∧
    macroPredict exExt exMacroUnfit exMicroUnfit [[0]] "KNeighborsClassifier" =
      .error macroPredictUnfitErr) :=
  ⟨⟨rfl, rfl, rfl⟩,
    claimC7_unfit_queries_raise exExt exMicroUnfit exMacroUnfit [[0]]
      "KNeighborsClassifier" none none 0 1 rfl rfl rfl rfl rfl rfl⟩

/-- Counterexample for C2: a `BaseMacroMSM.fit` call on a previously fitted
macrostate model that raises the macrostate-count ConfigurationError has
already overwritten `n_macrostates` (2 becomes 7) and `lag` (1 becomes 5), so
an erroring fit does NOT leave all previously stored attributes unchanged. -/
theorem claimC2_counterexample :
    (macroFit exExt exMacroFit exMicroFit 7 (some 5) "PCCA").err ≠ none ∧
    (macroFit exExt exMacroFit exMicroFit 7 (some 5) "PCCA").st.N = some 7 ∧
    exMacroFit.N = some 2 ∧
    (macroFit exExt exMacroFit exMicroFit 7 (some 5) "PCCA").st.lag = 5 ∧
    exMacroFit.lag = 1 := by
  decide

/-- Claim C2 (amended): `BaseMicroMSM.fit` called with neither a state count
nor centroids raises before any mutation and leaves the model exactly as it
was, but a `BaseMacroMSM.fit` that fails the macrostate-count validation has
already committed the new `n_macrostates` and any supplied `lag`: an erroring
fit can leave the model half-updated. -/
theorem claimC2_amended_mutation_before_validation
    (ext : Ext) (st0 : MacroSt) (micro : MicroSt) (n : Nat)
    (lagq : Option Nat) (method : String) (stM : MicroSt)
    (lagq2 : Option Nat) (mq : Option String) (mN : Nat)
    (hmN : micro.N = some mN) (hgt : (n : Int) > (mN : Int) - 1) :
    macroFit ext st0 micro n lagq method =
      ⟨macroEntrySt st0 n lagq, false, some tooManyMacroErr⟩ ∧
    microFit ext stM none none lagq2 mq = (stM, some neitherSuppliedErr) := by
  constructor
  · simp [macroFit, hmN, if_pos hgt]
  · rfl

/-- Witness for the amended C2 at a concrete input. -/
theorem claimC2_amended_witness :
    exMicroFit.N = some 3 ∧
    (macroFit exExt exMacroFit exMicroFit 7 (some 5) "PCCA" =
      ⟨macroEntrySt exMacroFit 7 (some 5), false, some tooManyMacroErr⟩ ∧
    microFit exExt exMicroUnfit none none none none =
      (exMicroUnfit, some neitherSuppliedErr)) :=
  ⟨rfl, claimC2_amended_mutation_before_validation exExt exMacroFit exMicroFit
    7 (some 5) "PCCA" exMicroUnfit none none 3 rfl (by decide)⟩

/-- Claim C4 (as the code really behaves): constructing a DataSet from
matrices of differing feature widths fails inside `np.concatenate` (line 17
of base.py) with numpy's ValueError, NOT with the repository's own
feature-width AttributeError of lines 22-24, which is unreachable for 2-D
input; with matching widths the construction succeeds and `extent` is the
flattened per-feature (min, max) sequence of length `2 × n_features`. -/
theorem claimC4_dataset_mismatch_and_extent :
    baseModelInit false true false 1 [⟨1, [[0], [4]]⟩, ⟨2, [[0, 0], [1, 1]]⟩] =
      .error concatMismatchErr ∧
    concatMismatchErr ≠ featuresMismatchErr ∧
    baseModelInit false true false 1 [⟨2, [[0, 9], [4, 2]]⟩, ⟨2, [[3, 3]]⟩] =
      .ok { is_force_db := false
            is_reversible := true
            is_sparse := false
            lag := 1
            n_sets := 2
            n_samples := [2, 1]
            extent := [0, 4, 2, 9]
            n_features := 2 } ∧
    ([0, 4, 2, 9] : List Int).length = 2 * 2 := by
  refine ⟨rfl, by decide, rfl, rfl⟩

end MarkovModels
